import Mathlib

/-
  Verification development for the `three-dimensions` dimensioning system.

  Shallow embedding of the core subsystems:
  - the snapping engine (src/SnappingManager.ts, `getSnapPoint`),
  - the dimension geometry builders (src/DimensionRenderer.ts),
  - the interaction state machine and construction plane
    (src/DimensionSystem.ts, plus the mode-switch wiring in demo/main.ts).

  Numbers are modelled as exact reals; three.js vector methods
  (addVectors, subVectors, multiplyScalar, divideScalar, dot, cross,
  length, lengthSq, distanceTo, normalize) are translated literally on
  a `Vec3` record of three reals.  Scene-level collaborators (raycaster
  hits, camera rays, the window prompt, the normal-matrix transform of a
  clicked face) are passed as explicit inputs.  Display-only side effects
  (snap marker, edge highlighter, materials) carry no geometric content
  and are not modelled except where a claim mentions them.
-/

namespace ThreeDim

noncomputable section

/-- A 3D point / vector: a semantic triple of reals (THREE.Vector3). -/
@[ext] structure Vec3 where
  x : ℝ
  y : ℝ
  z : ℝ

namespace Vec3

instance : Zero Vec3 := ⟨⟨0, 0, 0⟩⟩
instance : Add Vec3 := ⟨fun a b => ⟨a.x + b.x, a.y + b.y, a.z + b.z⟩⟩
instance : Neg Vec3 := ⟨fun a => ⟨-a.x, -a.y, -a.z⟩⟩
instance : Sub Vec3 := ⟨fun a b => ⟨a.x - b.x, a.y - b.y, a.z - b.z⟩⟩
instance : SMul ℝ Vec3 := ⟨fun r a => ⟨r * a.x, r * a.y, r * a.z⟩⟩

@[simp] theorem zero_x : (0 : Vec3).x = 0 := rfl
@[simp] theorem zero_y : (0 : Vec3).y = 0 := rfl
@[simp] theorem zero_z : (0 : Vec3).z = 0 := rfl
@[simp] theorem add_x (a b : Vec3) : (a + b).x = a.x + b.x := rfl
@[simp] theorem add_y (a b : Vec3) : (a + b).y = a.y + b.y := rfl
@[simp] theorem add_z (a b : Vec3) : (a + b).z = a.z + b.z := rfl
@[simp] theorem neg_x (a : Vec3) : (-a).x = -a.x := rfl
@[simp] theorem neg_y (a : Vec3) : (-a).y = -a.y := rfl
@[simp] theorem neg_z (a : Vec3) : (-a).z = -a.z := rfl
@[simp] theorem sub_x (a b : Vec3) : (a - b).x = a.x - b.x := rfl
@[simp] theorem sub_y (a b : Vec3) : (a - b).y = a.y - b.y := rfl
@[simp] theorem sub_z (a b : Vec3) : (a - b).z = a.z - b.z := rfl
@[simp] theorem smul_x (r : ℝ) (a : Vec3) : (r • a).x = r * a.x := rfl
@[simp] theorem smul_y (r : ℝ) (a : Vec3) : (r • a).y = r * a.y := rfl
@[simp] theorem smul_z (r : ℝ) (a : Vec3) : (r • a).z = r * a.z := rfl

instance : AddCommGroup Vec3 where
  add_assoc a b c := by ext <;> simp <;> ring
  zero_add a := by ext <;> simp
  add_zero a := by ext <;> simp
  add_comm a b := by ext <;> simp <;> ring
  neg_add_cancel a := by ext <;> simp
  sub_eq_add_neg a b := by ext <;> simp <;> ring
  nsmul := nsmulRec
  zsmul := zsmulRec

instance : Module ℝ Vec3 where
  one_smul a := by ext <;> simp
  mul_smul r s a := by ext <;> simp <;> ring
  smul_zero r := by ext <;> simp
  smul_add r a b := by ext <;> simp <;> ring
  add_smul r s a := by ext <;> simp <;> ring
  zero_smul a := by ext <;> simp

/-- THREE.Vector3.dot. -/
def dot (a b : Vec3) : ℝ := a.x * b.x + a.y * b.y + a.z * b.z

/-- THREE.Vector3.cross / crossVectors. -/
def cross (a b : Vec3) : Vec3 :=
  ⟨a.y * b.z - a.z * b.y, a.z * b.x - a.x * b.z, a.x * b.y - a.y * b.x⟩

/-- THREE.Vector3.lengthSq: x*x + y*y + z*z. -/
def lengthSq (a : Vec3) : ℝ := a.x * a.x + a.y * a.y + a.z * a.z

/-- THREE.Vector3.length: sqrt of lengthSq. -/
def length (a : Vec3) : ℝ := Real.sqrt a.lengthSq

/-- THREE.Vector3.distanceToSquared. -/
def distanceToSquared (a b : Vec3) : ℝ :=
  (a.x - b.x) * (a.x - b.x) + (a.y - b.y) * (a.y - b.y) + (a.z - b.z) * (a.z - b.z)

/-- THREE.Vector3.distanceTo: sqrt of distanceToSquared. -/
def distanceTo (a b : Vec3) : ℝ := Real.sqrt (a.distanceToSquared b)

/-- THREE.Vector3.normalize: divideScalar(length() || 1).  The `|| 1`
guard only matters for the zero vector, where dividing by 1 returns the
zero vector; over exact reals `(length 0)⁻¹ • 0 = 0` gives the same
value, so the guard needs no separate branch. -/
def normalize (a : Vec3) : Vec3 := a.length⁻¹ • a

theorem dot_comm (a b : Vec3) : a.dot b = b.dot a := by
  simp [dot]; ring

theorem dot_add_left (a b c : Vec3) : (a + b).dot c = a.dot c + b.dot c := by
  simp [dot]; ring

theorem dot_add_right (a b c : Vec3) : a.dot (b + c) = a.dot b + a.dot c := by
  simp [dot]; ring

theorem dot_sub_left (a b c : Vec3) : (a - b).dot c = a.dot c - b.dot c := by
  simp [dot]; ring

theorem dot_smul_left (r : ℝ) (a b : Vec3) : (r • a).dot b = r * a.dot b := by
  simp [dot]; ring

theorem dot_smul_right (r : ℝ) (a b : Vec3) : a.dot (r • b) = r * a.dot b := by
  simp [dot]; ring

theorem lengthSq_eq_dot (a : Vec3) : a.lengthSq = a.dot a := by
  simp [dot, lengthSq]

theorem lengthSq_nonneg (a : Vec3) : 0 ≤ a.lengthSq := by
  have hx := mul_self_nonneg a.x
  have hy := mul_self_nonneg a.y
  have hz := mul_self_nonneg a.z
  simp only [lengthSq]; linarith

theorem length_nonneg (a : Vec3) : 0 ≤ a.length := Real.sqrt_nonneg _

theorem sq_length (a : Vec3) : a.length ^ 2 = a.lengthSq :=
  Real.sq_sqrt a.lengthSq_nonneg

theorem lengthSq_eq_zero_iff (a : Vec3) : a.lengthSq = 0 ↔ a = 0 := by
  constructor
  · intro h
    have hx := mul_self_nonneg a.x
    have hy := mul_self_nonneg a.y
    have hz := mul_self_nonneg a.z
    simp only [lengthSq] at h
    ext <;> simp only [zero_x, zero_y, zero_z] <;> nlinarith
  · intro h; subst h; simp [lengthSq]

theorem lengthSq_pos_of_ne_zero {a : Vec3} (h : a ≠ 0) : 0 < a.lengthSq :=
  lt_of_le_of_ne a.lengthSq_nonneg fun h0 => h (a.lengthSq_eq_zero_iff.mp h0.symm)

theorem length_pos_of_ne_zero {a : Vec3} (h : a ≠ 0) : 0 < a.length :=
  Real.sqrt_pos.mpr (lengthSq_pos_of_ne_zero h)

theorem distanceToSquared_eq_lengthSq (a b : Vec3) :
    a.distanceToSquared b = (a - b).lengthSq := by
  simp [distanceToSquared, lengthSq]

theorem distanceTo_eq_length (a b : Vec3) : a.distanceTo b = (a - b).length := by
  simp [distanceTo, length, distanceToSquared_eq_lengthSq]

theorem distanceTo_nonneg (a b : Vec3) : 0 ≤ a.distanceTo b := Real.sqrt_nonneg _

theorem distanceTo_comm (a b : Vec3) : a.distanceTo b = b.distanceTo a := by
  simp only [distanceTo, distanceToSquared]; ring_nf

end Vec3

/-! ### Snapping engine (src/SnappingManager.ts) -/

/-- Snap feature kinds (src/types.ts `SnapType`). -/
inductive SnapType where
  | vertex | edge | midpoint | centroid | face | none
deriving DecidableEq

/-- `SnapResult` (src/types.ts); the `object` field is a reference to the
hit scene object, which carries no geometric content here and is omitted. -/
structure SnapResult where
  point : Vec3
  type : SnapType
  distance : ℝ
  edgeVertices : Option (Vec3 × Vec3)

/-- The SnappingManager's mutable configuration: `enabled` plus the four
independent category toggles (snapVertices / snapEdges / snapMidpoints /
snapCentroids). -/
structure SnapToggles where
  enabled : Bool
  snapVertices : Bool
  snapEdges : Bool
  snapMidpoints : Bool
  snapCentroids : Bool

/-- The data `getSnapPoint` extracts from the first raycaster hit: the raw
hit point and the hit triangle's three vertices already transformed to
world space (the source applies `mesh.matrixWorld`, supplied by the scene). -/
structure SnapHit where
  point : Vec3
  v0 : Vec3
  v1 : Vec3
  v2 : Vec3

/-- src/utils/geometry.ts `getClosestPointOnLineSegment`, via
THREE.Line3.closestPointToPoint with clampToLine = true:
t = clamp(((p−s)·(e−s)) / |e−s|², 0, 1), result = s + t·(e−s).
The source guards the zero-length segment with `t = 0`; over reals the
division by zero already yields 0, the same clamped parameter. -/
def getClosestPointOnLineSegment (point s e : Vec3) : Vec3 :=
  let startP := point - s
  let startEnd := e - s
  let startEnd2 := startEnd.dot startEnd
  let t := max 0 (min 1 (startEnd.dot startP / startEnd2))
  s + t • startEnd

/-- The fixed world-space snap threshold (0.2 units). -/
def snapThreshold : ℝ := 0.2

/-- One snap candidate before distance scoring: its world point, category,
and the edge endpoints recorded for edge/midpoint results. -/
structure SnapCandidate where
  point : Vec3
  type : SnapType
  edgeVertices : Option (Vec3 × Vec3)

/-- The running best accumulator of `getSnapPoint` (`bestSnap`, `minSnapDist`). -/
structure BestAcc where
  best : Option SnapResult
  minDist : ℝ

/-- One iteration of the candidate loops in `getSnapPoint`: compute the
candidate's distance to the raw hit point and replace the running best on
a strict improvement (`dist < minSnapDist`). -/
def snapStep (p : Vec3) (acc : BestAcc) (c : SnapCandidate) : BestAcc :=
  if c.point.distanceTo p < acc.minDist then
    { best := some { point := c.point, type := c.type,
                     distance := c.point.distanceTo p,
                     edgeVertices := c.edgeVertices },
      minDist := c.point.distanceTo p }
  else acc

/-- The hit triangle's vertices in iteration order (`hit.face.a/b/c`). -/
def triVertices (h : SnapHit) : List Vec3 := [h.v0, h.v1, h.v2]

/-- The hit triangle's edges in iteration order (the `edges` array built in
both the midpoint and the edge loop). -/
def triEdges (h : SnapHit) : List (Vec3 × Vec3) :=
  [(h.v0, h.v1), (h.v1, h.v2), (h.v2, h.v0)]

/-- All snap candidates of the enabled categories, in the source's
iteration order: the vertex loop, then the midpoint loop, then the
centroid check, then the edge loop; each block guarded by its toggle.
The four sequential loops of the source share one `(bestSnap, minSnapDist)`
accumulator, so their composition is exactly a left fold over this
concatenation. -/
def snapCandidates (cfg : SnapToggles) (h : SnapHit) : List SnapCandidate :=
  (if cfg.snapVertices then
    (triVertices h).map (fun v => ⟨v, SnapType.vertex, Option.none⟩)
  else []) ++
  (if cfg.snapMidpoints then
    (triEdges h).map (fun e => ⟨(0.5 : ℝ) • (e.1 + e.2), SnapType.midpoint, some e⟩)
  else []) ++
  (if cfg.snapCentroids then
    [⟨(3 : ℝ)⁻¹ • (h.v0 + h.v1 + h.v2), SnapType.centroid, Option.none⟩]
  else []) ++
  (if cfg.snapEdges then
    (triEdges h).map
      (fun e => ⟨getClosestPointOnLineSegment h.point e.1 e.2, SnapType.edge, some e⟩)
  else [])

/-- `SnappingManager.getSnapPoint`, from the raycast result onward.
`hit = none` covers "no intersection" and the cases that yield no
candidates (a hit that is not a mesh face with buffer geometry); a
disabled manager never raycasts and returns none before looking at the
hit.  The raycast itself and the marker / edge-highlighter visuals are
display-side collaborators and carry no geometric content. -/
def getSnapPoint (cfg : SnapToggles) (hit : Option SnapHit) : Option SnapResult :=
  if cfg.enabled then
    match hit with
    | Option.none => Option.none
    | some h =>
      (List.foldl (snapStep h.point) ⟨Option.none, snapThreshold⟩
        (snapCandidates cfg h)).best
  else Option.none

/-! ### Dimension renderer (src/DimensionRenderer.ts, src/types.ts) -/

/-- `DimensionType` (src/types.ts). -/
inductive DimensionType where
  | linear | aligned | angle | leader
deriving DecidableEq

/-- The display units of `DimensionStyle` (src/types.ts `'m' | 'mm' | 'ft'`). -/
inductive DimUnits where
  | m | mm | ft
deriving DecidableEq

/-- `DimensionStyle.textMode` (src/types.ts). -/
inductive TextMode where
  | horizontal | aligned
deriving DecidableEq

/-- `DimensionStyle` (src/types.ts).  Colors stay the strings the style
carries; their parsing into THREE.Color is display-side. -/
structure DimensionStyle where
  color : String
  fontSize : ℝ
  scale : ℝ
  depthTest : Bool
  offset : ℝ
  units : DimUnits
  textBgColor : Option String
  textMode : TextMode
deriving DecidableEq

/-- `Partial<DimensionStyle>`: the patch accepted by `setStyle`; a `none`
field is absent from the patch and keeps the current value. -/
structure StylePatch where
  color : Option String
  fontSize : Option ℝ
  scale : Option ℝ
  depthTest : Option Bool
  offset : Option ℝ
  units : Option DimUnits
  textBgColor : Option (Option String)
  textMode : Option TextMode

/-- The object-spread merge `{ ...this.style, ...style }` of `setStyle`. -/
def mergeStyle (s : DimensionStyle) (p : StylePatch) : DimensionStyle where
  color := p.color.getD s.color
  fontSize := p.fontSize.getD s.fontSize
  scale := p.scale.getD s.scale
  depthTest := p.depthTest.getD s.depthTest
  offset := p.offset.getD s.offset
  units := p.units.getD s.units
  textBgColor := p.textBgColor.getD s.textBgColor
  textMode := p.textMode.getD s.textMode

/-- The renderer's default style (DimensionRenderer.ts, `style` initializer). -/
def whiteHex : String := "#ffffff"

/-- Default leader label (`data.text || "Note"`). -/
def noteText : String := "Note"

def blackHex : String := "#000000"

def defaultStyle : DimensionStyle where
  color := blackHex
  fontSize := 1
  scale := 1
  depthTest := false
  offset := 0.5
  units := DimUnits.m
  textBgColor := some whiteHex
  textMode := TextMode.horizontal

/-- `DimensionData` (src/types.ts): the persisted record of one dimension.
`endPt` is the source's `end` (a reserved word here); for angle dimensions
`endPt` is arm 1 and `offsetPoint` the radius point, for leaders `endPt`
is the elbow and `offsetPoint` the extension end. -/
structure DimensionData where
  id : ℤ
  type : DimensionType
  start : Vec3
  endPt : Vec3
  offsetPoint : Vec3
  angleP2 : Option Vec3
  text : Option String

/-- A line material's colour: the style colour string plus whether the
preview blend (`color.lerp(0x888888, 0.5)`) was applied. -/
structure ColorSpec where
  base : String
  previewBlend : Bool
deriving DecidableEq

/-- The label value a text sprite displays.  The numeric formatting
(`toFixed`, unit suffixes) happens in the canvas collaborator; the value
and unit it formats are carried here. -/
inductive LabelVal where
  | linearDist (value : ℝ) (units : DimUnits)
  | angleDeg (value : ℝ)
  | note (s : String)

/-- One drawable primitive of a built dimension group. -/
inductive Prim where
  | line (a b : Vec3) (color : ColorSpec) (opacity : ℝ)
  | polyline (pts : List Vec3) (color : ColorSpec) (opacity : ℝ)
  | segments (pts : List Vec3) (color : ColorSpec) (opacity : ℝ)
  | cone (pos dir : Vec3) (radius len : ℝ) (color : ColorSpec)
  | sprite (label : LabelVal) (pos : Vec3) (color : String) (scale : ℝ)
      (bg : Option String)

/-- Main-line opacity: `isPreview ? 0.6 : 1.0`. -/
def opac (isPreview : Bool) : ℝ := if isPreview then 0.6 else 1.0

/-- The offset computation of `buildLinearGeometry` (lines 187-202):
dir = normalize(end−start); project (offset−start) onto dir; the
perpendicular remainder `perpVec` shifts both anchors to the dimension
line's endpoints (start+perpVec, end+perpVec). -/
def linearDimEnds (start endPt offsetPoint : Vec3) : Vec3 × Vec3 :=
  let dir := (endPt - start).normalize
  let vStartOffset := offsetPoint - start
  let projectionLength := vStartOffset.dot dir
  let projectionVec := projectionLength • dir
  let perpVec := vStartOffset - projectionVec
  (start + perpVec, endPt + perpVec)

/-- `DimensionRenderer.buildLinearGeometry`. -/
def buildLinearGeometry (style : DimensionStyle) (data : DimensionData)
    (isPreview : Bool) : Option (List Prim) :=
  let start := data.start
  let endPt := data.endPt
  let offsetPoint := data.offsetPoint
  let distance := start.distanceTo endPt
  if distance < 0.001 then Option.none
  else
    let color : ColorSpec := ⟨style.color, isPreview⟩
    let dir := (endPt - start).normalize
    let vStartOffset := offsetPoint - start
    let perpVec := vStartOffset - (vStartOffset.dot dir) • dir
    let p1 := (linearDimEnds start endPt offsetPoint).1
    let p2 := (linearDimEnds start endPt offsetPoint).2
    let gap : ℝ := 0.0
    let extension := 0.1 * style.scale
    let leaderDir := if perpVec.lengthSq < 0.0001 then (⟨0, 1, 0⟩ : Vec3)
      else perpVec.normalize
    let l1Start := start + gap • leaderDir
    let l1End := p1 + extension • leaderDir
    let l2Start := endPt + gap • leaderDir
    let l2End := p2 + extension • leaderDir
    let tickSize := 0.1 * style.scale
    let tickVec := tickSize • (dir + leaderDir).normalize
    let t1a := p1 - tickVec
    let t1b := p1 + tickVec
    let t2a := p2 - tickVec
    let t2b := p2 + tickVec
    let midPoint := (0.5 : ℝ) • (p1 + p2)
    let textPos := midPoint + (0.2 * style.scale) • leaderDir
    some [Prim.line p1 p2 color (opac isPreview),
          Prim.line l1Start l1End color 0.5,
          Prim.line l2Start l2End color 0.5,
          Prim.segments [t1a, t1b, t2a, t2b] color (opac isPreview),
          Prim.sprite (LabelVal.linearDist distance style.units) textPos
            style.color style.scale style.textBgColor]

/-- THREE.MathUtils.clamp(value, min, max) = Math.max(min, Math.min(max, value)). -/
def clamp (value mn mx : ℝ) : ℝ := max mn (min mx value)

/-- THREE.Vector3.angleTo: acos of the clamped normalized dot product;
π/2 when either vector has zero length. -/
def Vec3.angleTo (a b : Vec3) : ℝ :=
  let denominator := Real.sqrt (a.lengthSq * b.lengthSq)
  if denominator = 0 then Real.pi / 2
  else Real.arccos (clamp (a.dot b / denominator) (-1) 1)

/-- The angle the angle builder measures between its two arms
(`v1.angleTo(v2)` with v1 = p1−center, v2 = p2−center). -/
def angleBetweenArms (center p1 p2 : Vec3) : ℝ :=
  (p1 - center).angleTo (p2 - center)

/-- THREE.Vector3.applyAxisAngle: rotation about a unit axis, written as
the Rodrigues formula (the source routes it through an equivalent
axis-angle quaternion). -/
def Vec3.applyAxisAngle (v axis : Vec3) (angle : ℝ) : Vec3 :=
  Real.cos angle • v + Real.sin angle • Vec3.cross axis v +
    ((1 - Real.cos angle) * axis.dot v) • axis

/-- The 25 arc samples (`curve.getPoints(24)` of the EllipseCurve from
angle 0 to `angle`, counter-clockwise) mapped into the arc plane:
center + radius·cos(t·angle)·xAxis + radius·sin(t·angle)·yAxis at
t = i/24. -/
def arcPoints (center xAxis yAxis : Vec3) (radius angle : ℝ) : List Vec3 :=
  (List.range 25).map fun i =>
    center + (radius * Real.cos ((i : ℝ) * angle / 24)) • xAxis +
      (radius * Real.sin ((i : ℝ) * angle / 24)) • yAxis

/-- `DimensionRenderer.buildAngleGeometry`. -/
def buildAngleGeometry (style : DimensionStyle) (data : DimensionData)
    (isPreview : Bool) : Option (List Prim) :=
  match data.angleP2 with
  | Option.none => Option.none
  | some p2 =>
    let center := data.start
    let p1 := data.endPt
    let radiusPoint := data.offsetPoint
    let v1 := p1 - center
    let v2 := p2 - center
    let radius := center.distanceTo radiusPoint
    if radius < 0.001 then Option.none
    else
      let color : ColorSpec := ⟨style.color, isPreview⟩
      let dir1 := v1.normalize
      let dir2 := v2.normalize
      let arcStart1 := center + radius • dir1
      let arcStart2 := center + radius • dir2
      let angle := v1.angleTo v2
      let degrees := angle * (180 / Real.pi)
      let normal0 := (Vec3.cross v1 v2).normalize
      let normal := if normal0.lengthSq < 0.0001 then (⟨0, 1, 0⟩ : Vec3) else normal0
      let xAxis := dir1
      let yAxis := (Vec3.cross normal xAxis).normalize
      let pts := arcPoints center xAxis yAxis radius angle
      let midDir := Vec3.applyAxisAngle dir1 normal (angle / 2)
      let textPos := center + (radius + 0.2 * style.scale) • midDir
      some [Prim.line center arcStart1 color (opac isPreview),
            Prim.line center arcStart2 color (opac isPreview),
            Prim.polyline pts color (opac isPreview),
            Prim.sprite (LabelVal.angleDeg degrees) textPos style.color
              style.scale style.textBgColor]

/-- `DimensionRenderer.buildLeaderGeometry`.  Always produces a group. -/
def buildLeaderGeometry (style : DimensionStyle) (data : DimensionData)
    (isPreview : Bool) : Option (List Prim) :=
  let start := data.start
  let endPt := data.endPt
  let offsetPoint := data.offsetPoint
  let color : ColorSpec := ⟨style.color, isPreview⟩
  let arrowDir0 := (start - endPt).normalize
  let arrowDir := if arrowDir0.lengthSq < 0.0001 then (⟨0, 1, 0⟩ : Vec3) else arrowDir0
  let arrowLen := 0.2 * style.scale
  let arrowWidth := 0.05 * style.scale
  let conePos := start - (arrowLen / 2) • arrowDir
  let label := Option.getD data.text noteText
  let extDir0 := (offsetPoint - endPt).normalize
  let extDir := if extDir0.lengthSq < 0.0001 then (⟨1, 0, 0⟩ : Vec3) else extDir0
  let textPos := offsetPoint + (0.2 * style.scale) • extDir
  some [Prim.line start endPt color (opac isPreview),
        Prim.line endPt offsetPoint color (opac isPreview),
        Prim.cone conePos arrowDir arrowWidth arrowLen color,
        Prim.sprite (LabelVal.note label) textPos style.color style.scale
          style.textBgColor]

/-- `DimensionRenderer.buildGeometry`: dispatch on the dimension type
(angle, leader, otherwise linear/aligned). -/
def buildGeometry (style : DimensionStyle) (data : DimensionData)
    (isPreview : Bool) : Option (List Prim) :=
  match data.type with
  | DimensionType.angle => buildAngleGeometry style data isPreview
  | DimensionType.leader => buildLeaderGeometry style data isPreview
  | _ => buildLinearGeometry style data isPreview

/-- The renderer's state: the persisted records, the id counter, the
style, and the two scene groups as lists of built primitive groups. -/
structure RendererState where
  dimensionData : List DimensionData
  nextId : ℤ
  style : DimensionStyle
  dimensionsGroup : List (List Prim)
  previewGroup : List (List Prim)

/-- `DimensionRenderer.rebuildAll`: clear the dimensions group and rebuild
every record's primitives from its stored anchors with the current style. -/
def rebuildAll (r : RendererState) : RendererState :=
  { r with dimensionsGroup :=
      r.dimensionData.filterMap fun d => buildGeometry r.style d false }

/-- `DimensionRenderer.setStyle`: merge the patch into the style, then
rebuild all persisted dimensions. -/
def setStyle (p : StylePatch) (r : RendererState) : RendererState :=
  rebuildAll { r with style := mergeStyle r.style p }

/-- `DimensionRenderer.createDimension`: append a record with cloned
anchors and the next id, then rebuild. -/
def createDimension (ty : DimensionType) (start endPt offsetPoint : Vec3)
    (angleP2 : Option Vec3) (text : Option String) (r : RendererState) :
    RendererState :=
  rebuildAll { r with
    dimensionData := r.dimensionData ++
      [⟨r.nextId, ty, start, endPt, offsetPoint, angleP2, text⟩],
    nextId := r.nextId + 1 }

/-- `DimensionRenderer.updatePreview`: replace the preview group with the
geometry built (as preview) from mock data with sentinel id −1. -/
def updatePreview (ty : DimensionType) (start endPt offsetPoint : Vec3)
    (angleP2 : Option Vec3) (text : Option String) (r : RendererState) :
    RendererState :=
  { r with previewGroup :=
      (buildGeometry r.style ⟨-1, ty, start, endPt, offsetPoint, angleP2, text⟩
        true).toList }

/-- `DimensionRenderer.clearPreview`. -/
def clearPreview (r : RendererState) : RendererState :=
  { r with previewGroup := [] }

/-- `DimensionRenderer.clear`. -/
def clearAll (r : RendererState) : RendererState :=
  { r with dimensionData := [], dimensionsGroup := [], previewGroup := [] }

/-- The perpendicular distance from point P to the infinite line through
A and B: the length of (P−A) minus its projection onto the unit direction
of B−A. -/
def perpDistToLine (P A B : Vec3) : ℝ :=
  let d := (B - A).normalize
  Vec3.length ((P - A) - ((P - A).dot d) • d)

/-! ### Construction plane and interaction state machine
    (src/DimensionSystem.ts; mode-switch wiring from demo/main.ts) -/

/-- `CPlane` (src/types.ts): origin and normal of the construction plane. -/
structure CPlane where
  origin : Vec3
  normal : Vec3

/-- A pointer ray (THREE.Ray as produced by `raycaster.setFromCamera`;
the camera-space construction is a collaborator, the ray is the input). -/
structure Ray where
  origin : Vec3
  dir : Vec3

/-- THREE.Ray.at(t): origin + t·direction. -/
def Ray.at (r : Ray) (t : ℝ) : Vec3 := r.origin + t • r.dir

/-- THREE.Plane as normal·p + constant = 0. -/
structure Plane where
  normal : Vec3
  constant : ℝ

/-- THREE.Plane.setFromNormalAndCoplanarPoint: copies the normal and sets
constant = −(point·normal). -/
def Plane.setFromNormalAndCoplanarPoint (n p : Vec3) : Plane :=
  ⟨n, -(p.dot n)⟩

/-- THREE.Plane.distanceToPoint: normal·p + constant (signed). -/
def Plane.distanceToPoint (pl : Plane) (p : Vec3) : ℝ :=
  pl.normal.dot p + pl.constant

/-- The ray parameter of the line-plane intersection,
t = −(origin·normal + constant) / (normal·direction). -/
def rayPlaneT (r : Ray) (pl : Plane) : ℝ :=
  -(r.origin.dot pl.normal + pl.constant) / (pl.normal.dot r.dir)

/-- THREE.Ray.distanceToPlane: none when the ray is parallel and off the
plane or when the intersection parameter is negative; 0 when the ray lies
in the plane. -/
def Ray.distanceToPlane (r : Ray) (pl : Plane) : Option ℝ :=
  if pl.normal.dot r.dir = 0 then
    if pl.distanceToPoint r.origin = 0 then some 0 else Option.none
  else
    if 0 ≤ rayPlaneT r pl then some (rayPlaneT r pl) else Option.none

/-- THREE.Ray.intersectPlane: the point at the distanceToPlane parameter. -/
def Ray.intersectPlane (r : Ray) (pl : Plane) : Option Vec3 :=
  (r.distanceToPlane pl).map fun t => r.at t

/-- The plane `getRayPoint` builds: the cplane's normal through the
reference point if one is given, the cplane's origin otherwise. -/
def cplanePlane (cp : CPlane) (referencePoint : Option Vec3) : Plane :=
  Plane.setFromNormalAndCoplanarPoint cp.normal (referencePoint.getD cp.origin)

/-- `DimensionSystem.getRayPoint`: intersect the pointer ray with the
construction plane (anchored at the reference point when given); fall
back to the point 10 units along the ray when there is no intersection. -/
def getRayPoint (cp : CPlane) (ray : Ray) (referencePoint : Option Vec3) : Vec3 :=
  match ray.intersectPlane (cplanePlane cp referencePoint) with
  | some p => p
  | Option.none => ray.at 10

/-- `InteractionState` (DimensionSystem.ts line 6). -/
inductive InteractionState where
  | idle | drawing | drawing_angle_p2 | offsetting
  | defining_cplane_p1 | defining_cplane_p2 | defining_cplane_p3
  | defining_cplane_face | translating_cplane
deriving DecidableEq

/-- The dimension system's state: the active mode, the construction
plane, the interaction state, the scratch buffer (startPoint, endPoint,
angleP2), and the renderer. -/
structure SystemState where
  mode : DimensionType
  cplane : CPlane
  state : InteractionState
  startPoint : Option Vec3
  endPoint : Option Vec3
  angleP2 : Option Vec3
  renderer : RendererState

/-- `DimensionSystem.setCPlane`: copy the origin, copy and normalize the
normal. -/
def setCPlane (origin normal : Vec3) (st : SystemState) : SystemState :=
  { st with cplane := ⟨origin, normal.normalize⟩ }

/-- `DimensionSystem.reset`: back to idle with an empty scratch buffer. -/
def resetScratch (st : SystemState) : SystemState :=
  { st with
    state := InteractionState.idle
    startPoint := Option.none
    endPoint := Option.none
    angleP2 := Option.none }

/-- `DimensionSystem.cancel`: reset, then clear the preview group. -/
def cancel (st : SystemState) : SystemState :=
  let st' := resetScratch st
  { st' with renderer := clearPreview st'.renderer }

/-- The mode switch as wired in demo/main.ts (the Mode GUI `onChange`):
assign the new mode, then `cancel()`. -/
def switchMode (m : DimensionType) (st : SystemState) : SystemState :=
  cancel { st with mode := m }

/-- `DimensionSystem.onClick`.  External collaborators are explicit
inputs: `snap` is the snapping engine's result for this click, `faceHit`
the raw raycaster hit used by the define-from-face state (its point and
its face normal already taken to world space by the normal matrix),
`ray` the pointer ray for plane resolution, and `promptText` the label
prompt's reply for leader finalization (none = cancelled prompt).
Branches that dereference a scratch point with the source's non-null
assertion (`this.startPoint!`) are modelled as no-ops when the point is
absent; those situations are unreachable in the source's state flow. -/
def onClick (snap : Option SnapResult) (faceHit : Option (Vec3 × Vec3))
    (ray : Ray) (promptText : Option String) (st : SystemState) : SystemState :=
  match st.state with
  | InteractionState.translating_cplane =>
    let point := match snap with
      | some s => s.point
      | Option.none => getRayPoint st.cplane ray Option.none
    resetScratch (setCPlane point st.cplane.normal st)
  | InteractionState.defining_cplane_face =>
    match faceHit with
    | some pn => resetScratch (setCPlane pn.1 pn.2 st)
    | Option.none => st
  | InteractionState.defining_cplane_p1 =>
    match snap with
    | Option.none => st
    | some s =>
      { st with
        startPoint := some s.point
        state := InteractionState.defining_cplane_p2 }
  | InteractionState.defining_cplane_p2 =>
    match snap with
    | Option.none => st
    | some s =>
      match st.startPoint with
      | Option.none => st
      | some sp =>
        let st' := { st with endPoint := some s.point }
        if sp.distanceTo s.point < 0.001 then st'
        else { st' with state := InteractionState.defining_cplane_p3 }
  | InteractionState.defining_cplane_p3 =>
    match snap with
    | Option.none => st
    | some s =>
      match st.startPoint, st.endPoint with
      | some sp, some ep =>
        let v1 := (ep - sp).normalize
        let v2 := (s.point - sp).normalize
        let normal := (Vec3.cross v1 v2).normalize
        if normal.lengthSq < 0.001 then resetScratch st
        else resetScratch (setCPlane sp normal st)
      | _, _ => st
  | InteractionState.idle =>
    match snap with
    | Option.none => st
    | some s =>
      { st with startPoint := some s.point, state := InteractionState.drawing }
  | InteractionState.drawing =>
    if st.mode = DimensionType.leader then
      let point := match snap with
        | some s => s.point
        | Option.none => getRayPoint st.cplane ray st.startPoint
      { st with endPoint := some point, state := InteractionState.offsetting }
    else
      match snap with
      | Option.none => st
      | some s =>
        match st.startPoint with
        | Option.none => st
        | some sp =>
          let st' := { st with endPoint := some s.point }
          if sp.distanceTo s.point < 0.001 then st'
          else if st.mode = DimensionType.angle then
            { st' with state := InteractionState.drawing_angle_p2 }
          else
            { st' with state := InteractionState.offsetting }
  | InteractionState.drawing_angle_p2 =>
    let point := match snap with
      | some s => s.point
      | Option.none => getRayPoint st.cplane ray st.startPoint
    match st.startPoint with
    | Option.none => st
    | some sp =>
      let st' := { st with angleP2 := some point }
      if sp.distanceTo point < 0.001 then st'
      else { st' with state := InteractionState.offsetting }
  | InteractionState.offsetting =>
    let point := match snap with
      | some s => s.point
      | Option.none => getRayPoint st.cplane ray st.startPoint
    match st.startPoint, st.endPoint with
    | some sp, some ep =>
      let r :=
        if st.mode = DimensionType.leader then
          match promptText with
          | some t => createDimension DimensionType.leader sp ep point
              Option.none (some t) st.renderer
          | Option.none => st.renderer
        else
          createDimension st.mode sp ep point st.angleP2 Option.none st.renderer
      resetScratch { st with renderer := clearPreview r }
    | _, _ => st

/-- Characterization of the running-best fold of `getSnapPoint`: either no
candidate beats the accumulator's minimum (and the accumulator is returned
unchanged), or the fold returns the snap built from the first candidate
attaining the minimum distance: every candidate before it is strictly
farther, every candidate after it is no closer. -/
theorem snapFold_char (p : Vec3) :
    ∀ (l : List SnapCandidate) (acc : BestAcc),
      (List.foldl (snapStep p) acc l = acc ∧
        ∀ c ∈ l, acc.minDist ≤ c.point.distanceTo p) ∨
      (∃ l₁ c l₂, l = l₁ ++ c :: l₂ ∧
        c.point.distanceTo p < acc.minDist ∧
        List.foldl (snapStep p) acc l =
          ⟨some ⟨c.point, c.type, c.point.distanceTo p, c.edgeVertices⟩,
           c.point.distanceTo p⟩ ∧
        (∀ e ∈ l₁, c.point.distanceTo p < e.point.distanceTo p) ∧
        (∀ e ∈ l₂, c.point.distanceTo p ≤ e.point.distanceTo p)) := by
  intro l
  induction l with
  | nil => intro acc; left; exact ⟨rfl, by simp⟩
  | cons a l ih =>
    intro acc
    by_cases hd : a.point.distanceTo p < acc.minDist
    · -- the head candidate improves on the running minimum
      have hstep : snapStep p acc a =
          ⟨some ⟨a.point, a.type, a.point.distanceTo p, a.edgeVertices⟩,
           a.point.distanceTo p⟩ := by
        simp [snapStep, hd]
      rcases ih (snapStep p acc a) with ⟨heq, hall⟩ | ⟨l₁, c, l₂, hdec, hlt, heq, hbef, haft⟩
      · right
        refine ⟨[], a, l, by simp, hd, ?_, by simp, ?_⟩
        · rw [List.foldl_cons, heq, hstep]
        · intro e he
          have := hall e he
          rw [hstep] at this
          exact this
      · right
        have hfirst : c.point.distanceTo p < a.point.distanceTo p := by
          rw [hstep] at hlt; exact hlt
        refine ⟨a :: l₁, c, l₂, by simp [hdec], lt_trans hfirst hd, ?_, ?_, haft⟩
        · rw [List.foldl_cons, heq]
        · intro e he
          rcases List.mem_cons.mp he with rfl | he'
          · exact hfirst
          · exact hbef e he'
    · -- the head candidate does not improve; the accumulator passes through
      have hstep : snapStep p acc a = acc := by simp [snapStep, hd]
      have hge : acc.minDist ≤ a.point.distanceTo p := le_of_not_lt hd
      rcases ih acc with ⟨heq, hall⟩ | ⟨l₁, c, l₂, hdec, hlt, heq, hbef, haft⟩
      · left
        constructor
        · rw [List.foldl_cons, hstep, heq]
        · intro e he
          rcases List.mem_cons.mp he with rfl | he'
          · exact hge
          · exact hall e he'
      · right
        refine ⟨a :: l₁, c, l₂, by simp [hdec], hlt, ?_, ?_, haft⟩
        · rw [List.foldl_cons, hstep, heq]
        · intro e he
          rcases List.mem_cons.mp he with rfl | he'
          · exact lt_of_lt_of_le hlt hge
          · exact hbef e he'

/-- C1.  For every ray hit and enabled-category configuration, when
`getSnapPoint` returns a snap it is built from a candidate of the combined
candidate list (vertices, then midpoints, then the centroid, then the
closest points on the three edges, each block present only when its toggle
is enabled): that candidate minimises the Euclidean distance to the raw
hit point over the whole list, and every candidate strictly earlier in the
iteration order is strictly farther — so on a tie the first candidate in
the fixed order wins, and the query is a total function (ties cannot make
it fail). -/
theorem getSnapPoint_picks_first_nearest (cfg : SnapToggles) (h : SnapHit)
    (r : SnapResult) (hr : getSnapPoint cfg (some h) = some r) :
    ∃ l₁ c l₂, snapCandidates cfg h = l₁ ++ c :: l₂ ∧
      r.point = c.point ∧ r.type = c.type ∧ r.edgeVertices = c.edgeVertices ∧
      r.distance = c.point.distanceTo h.point ∧
      r.distance < snapThreshold ∧
      (∀ e ∈ snapCandidates cfg h, r.distance ≤ e.point.distanceTo h.point) ∧
      (∀ e ∈ l₁, r.distance < e.point.distanceTo h.point) := by
  by_cases hE : cfg.enabled
  · simp only [getSnapPoint, hE, if_true] at hr
    rcases snapFold_char h.point (snapCandidates cfg h) ⟨Option.none, snapThreshold⟩ with
      ⟨heq, _⟩ | ⟨l₁, c, l₂, hdec, hlt, heq, hbef, haft⟩
    · rw [heq] at hr; exact absurd hr (by simp)
    · rw [heq] at hr
      have hr' : r = ⟨c.point, c.type, c.point.distanceTo h.point, c.edgeVertices⟩ :=
        (Option.some.injEq _ _ ▸ hr).symm
      subst hr'
      refine ⟨l₁, c, l₂, hdec, rfl, rfl, rfl, rfl, hlt, ?_, hbef⟩
      intro e he
      rw [hdec] at he
      rcases List.mem_append.mp he with he₁ | he₂
      · exact le_of_lt (hbef e he₁)
      · rcases List.mem_cons.mp he₂ with rfl | he₃
        · exact le_refl _
        · exact haft e he₃
  · simp only [getSnapPoint, hE, if_false] at hr
    exact absurd hr (by simp)

/-- C2.  Whenever `getSnapPoint` returns a snap, the returned point lies
strictly within the snap threshold (0.2 world units) of the raw hit
point; and when every candidate of the enabled categories is at distance
at least the threshold, the query returns none even though a surface was
hit. -/
theorem getSnapPoint_threshold (cfg : SnapToggles) (h : SnapHit) :
    (∀ r, getSnapPoint cfg (some h) = some r →
      r.point.distanceTo h.point < snapThreshold) ∧
    ((∀ c ∈ snapCandidates cfg h,
        snapThreshold ≤ c.point.distanceTo h.point) →
      getSnapPoint cfg (some h) = Option.none) := by
  constructor
  · intro r hr
    by_cases hE : cfg.enabled
    · simp only [getSnapPoint, hE, if_true] at hr
      rcases snapFold_char h.point (snapCandidates cfg h) ⟨Option.none, snapThreshold⟩ with
        ⟨heq, _⟩ | ⟨l₁, c, l₂, _, hlt, heq, _, _⟩
      · rw [heq] at hr; exact absurd hr (by simp)
      · rw [heq] at hr
        have hr' : r = ⟨c.point, c.type, c.point.distanceTo h.point, c.edgeVertices⟩ :=
          (Option.some.injEq _ _ ▸ hr).symm
        subst hr'
        exact hlt
    · simp only [getSnapPoint, hE, if_false] at hr
      exact absurd hr (by simp)
  · intro hall
    by_cases hE : cfg.enabled
    · simp only [getSnapPoint, hE, if_true]
      rcases snapFold_char h.point (snapCandidates cfg h) ⟨Option.none, snapThreshold⟩ with
        ⟨heq, _⟩ | ⟨l₁, c, l₂, hdec, hlt, _, _, _⟩
      · rw [heq]
      · exact absurd hlt (not_lt.mpr (hall c (by rw [hdec]; simp)))
    · simp [getSnapPoint, hE]

/-- Witness for C1: with only vertex snapping enabled, a hit whose raw
point coincides with a triangle vertex snaps to that vertex, and the
theorem's first-minimum characterization holds there. -/
theorem getSnapPoint_picks_first_nearest_witness :
    getSnapPoint ⟨true, true, false, false, false⟩
        (some ⟨⟨0,0,0⟩, ⟨0,0,0⟩, ⟨1,0,0⟩, ⟨0,1,0⟩⟩) =
      some ⟨⟨0,0,0⟩, SnapType.vertex, 0, Option.none⟩ ∧
    (∃ l₁ c l₂,
      snapCandidates ⟨true, true, false, false, false⟩
          ⟨⟨0,0,0⟩, ⟨0,0,0⟩, ⟨1,0,0⟩, ⟨0,1,0⟩⟩ = l₁ ++ c :: l₂ ∧
      (⟨⟨0,0,0⟩, SnapType.vertex, 0, Option.none⟩ : SnapResult).point = c.point ∧
      (⟨⟨0,0,0⟩, SnapType.vertex, 0, Option.none⟩ : SnapResult).type = c.type ∧
      (⟨⟨0,0,0⟩, SnapType.vertex, 0, Option.none⟩ : SnapResult).edgeVertices
        = c.edgeVertices ∧
      (⟨⟨0,0,0⟩, SnapType.vertex, 0, Option.none⟩ : SnapResult).distance =
        c.point.distanceTo (⟨0,0,0⟩ : Vec3) ∧
      (0 : ℝ) < snapThreshold ∧
      (∀ e ∈ snapCandidates ⟨true, true, false, false, false⟩
          ⟨⟨0,0,0⟩, ⟨0,0,0⟩, ⟨1,0,0⟩, ⟨0,1,0⟩⟩,
        (0 : ℝ) ≤ e.point.distanceTo (⟨0,0,0⟩ : Vec3)) ∧
      (∀ e ∈ l₁, (0 : ℝ) < e.point.distanceTo (⟨0,0,0⟩ : Vec3))) := by
  have heval : getSnapPoint ⟨true, true, false, false, false⟩
      (some ⟨⟨0,0,0⟩, ⟨0,0,0⟩, ⟨1,0,0⟩, ⟨0,1,0⟩⟩) =
      some ⟨⟨0,0,0⟩, SnapType.vertex, 0, Option.none⟩ := by
    norm_num [getSnapPoint, snapCandidates, triVertices, triEdges, snapStep,
      snapThreshold, Vec3.distanceTo, Vec3.distanceToSquared, Real.sqrt_zero,
      Real.sqrt_one]
  exact ⟨heval, getSnapPoint_picks_first_nearest _ _ _ heval⟩

/-- Witness for C2: at the same concrete hit, the returned point is within
the threshold of the raw hit point; and on a triangle whose features are
all at least 0.2 away from the raw hit point the query returns none. -/
theorem getSnapPoint_threshold_witness :
    (⟨0,0,0⟩ : Vec3).distanceTo ⟨0,0,0⟩ < snapThreshold ∧
    getSnapPoint ⟨true, true, false, false, false⟩
        (some ⟨⟨0,0,0⟩, ⟨1,0,0⟩, ⟨2,0,0⟩, ⟨1,1,0⟩⟩) = Option.none := by
  constructor
  · exact (getSnapPoint_threshold ⟨true, true, false, false, false⟩
      ⟨⟨0,0,0⟩, ⟨0,0,0⟩, ⟨1,0,0⟩, ⟨0,1,0⟩⟩).1 ⟨⟨0,0,0⟩, SnapType.vertex, 0, Option.none⟩
      (by norm_num [getSnapPoint, snapCandidates, triVertices, triEdges, snapStep,
        snapThreshold, Vec3.distanceTo, Vec3.distanceToSquared, Real.sqrt_zero,
        Real.sqrt_one])
  · refine (getSnapPoint_threshold ⟨true, true, false, false, false⟩
      ⟨⟨0,0,0⟩, ⟨1,0,0⟩, ⟨2,0,0⟩, ⟨1,1,0⟩⟩).2 ?_
    have h1 : (1/5 : ℝ) ≤ Real.sqrt 1 := by rw [Real.sqrt_one]; norm_num
    have h2 : (1/5 : ℝ) ≤ Real.sqrt 2 := by
      nlinarith [Real.sq_sqrt (show (0:ℝ) ≤ 2 by norm_num), Real.sqrt_nonneg 2]
    have h4 : (1/5 : ℝ) ≤ Real.sqrt 4 := by
      nlinarith [Real.sq_sqrt (show (0:ℝ) ≤ 4 by norm_num), Real.sqrt_nonneg 4]
    have hcands : snapCandidates ⟨true, true, false, false, false⟩
        ⟨⟨0,0,0⟩, ⟨1,0,0⟩, ⟨2,0,0⟩, ⟨1,1,0⟩⟩ =
        [⟨⟨1,0,0⟩, SnapType.vertex, Option.none⟩,
         ⟨⟨2,0,0⟩, SnapType.vertex, Option.none⟩,
         ⟨⟨1,1,0⟩, SnapType.vertex, Option.none⟩] := by
      simp [snapCandidates, triVertices, triEdges]
    intro c hc
    rw [hcands] at hc
    simp only [List.mem_cons, List.not_mem_nil, or_false] at hc
    rcases hc with rfl | rfl | rfl <;>
      norm_num [snapThreshold, Vec3.distanceTo, Vec3.distanceToSquared] <;>
      assumption

/-- C3.  For every start A and end B at least 0.001 apart and every offset
point O, the linear builder's offset vector v — (O−A) minus its projection
onto normalize(B−A), exactly as `linearDimEnds` computes it — places the
two dimension-line endpoints A+v and B+v at exactly the same perpendicular
distance from the infinite line through A and B as O. -/
theorem linearDimEnds_equal_perp (A B O : Vec3) (h : 0.001 ≤ A.distanceTo B) :
    perpDistToLine (linearDimEnds A B O).1 A B = perpDistToLine O A B ∧
    perpDistToLine (linearDimEnds A B O).2 A B = perpDistToLine O A B := by
  have hlen : A.distanceTo B = (B - A).length := by
    rw [Vec3.distanceTo_eq_length]
    have hsq : (A - B).lengthSq = (B - A).lengthSq := by simp [Vec3.lengthSq]; ring
    simp [Vec3.length, hsq]
  have hLpos : 0 < (B - A).length := by rw [hlen] at h; linarith
  have hLne : (B - A).length ≠ 0 := ne_of_gt hLpos
  have hdotu : (B - A).dot (B - A) = (B - A).length ^ 2 := by
    rw [Vec3.sq_length, Vec3.lengthSq_eq_dot]
  have hdd : ((B - A).normalize).dot ((B - A).normalize) = 1 := by
    simp only [Vec3.normalize, Vec3.dot_smul_left, Vec3.dot_smul_right, hdotu]
    field_simp
    ring
  have hud : (B - A).dot ((B - A).normalize) = (B - A).length := by
    simp only [Vec3.normalize, Vec3.dot_smul_right, hdotu]
    field_simp
    ring
  have hvd : ((O - A) - (((O - A).dot ((B - A).normalize)) • ((B - A).normalize))).dot
      ((B - A).normalize) = 0 := by
    rw [Vec3.dot_sub_left, Vec3.dot_smul_left, hdd]
    ring
  have hLd : (B - A).length • ((B - A).normalize) = B - A := by
    simp only [Vec3.normalize, smul_smul]
    rw [mul_inv_cancel₀ hLne, one_smul]
  constructor
  · change Vec3.length
        (((A + ((O - A) - (((O - A).dot ((B - A).normalize)) • ((B - A).normalize)))) - A) -
          ((((A + ((O - A) - (((O - A).dot ((B - A).normalize)) • ((B - A).normalize)))) - A).dot
            ((B - A).normalize)) • ((B - A).normalize))) =
      Vec3.length
        ((O - A) - (((O - A).dot ((B - A).normalize)) • ((B - A).normalize)))
    rw [add_sub_cancel_left, hvd, zero_smul, sub_zero]
  · change Vec3.length
        (((B + ((O - A) - (((O - A).dot ((B - A).normalize)) • ((B - A).normalize)))) - A) -
          ((((B + ((O - A) - (((O - A).dot ((B - A).normalize)) • ((B - A).normalize)))) - A).dot
            ((B - A).normalize)) • ((B - A).normalize))) =
      Vec3.length
        ((O - A) - (((O - A).dot ((B - A).normalize)) • ((B - A).normalize)))
    have hBv : (B + ((O - A) - (((O - A).dot ((B - A).normalize)) • ((B - A).normalize)))) - A =
        (B - A) + ((O - A) - (((O - A).dot ((B - A).normalize)) • ((B - A).normalize))) := by
      abel
    rw [hBv, Vec3.dot_add_left, hud, hvd, add_zero, hLd, add_sub_cancel_left]

/-- Witness for C3 at A = (0,0,0), B = (2,0,0), O = (1,1,0). -/
theorem linearDimEnds_equal_perp_witness :
    (0.001 : ℝ) ≤ (⟨0,0,0⟩ : Vec3).distanceTo ⟨2,0,0⟩ ∧
    (perpDistToLine (linearDimEnds ⟨0,0,0⟩ ⟨2,0,0⟩ ⟨1,1,0⟩).1 ⟨0,0,0⟩ ⟨2,0,0⟩ =
        perpDistToLine (⟨1,1,0⟩ : Vec3) ⟨0,0,0⟩ ⟨2,0,0⟩ ∧
      perpDistToLine (linearDimEnds ⟨0,0,0⟩ ⟨2,0,0⟩ ⟨1,1,0⟩).2 ⟨0,0,0⟩ ⟨2,0,0⟩ =
        perpDistToLine (⟨1,1,0⟩ : Vec3) ⟨0,0,0⟩ ⟨2,0,0⟩) := by
  have hd : (0.001 : ℝ) ≤ (⟨0,0,0⟩ : Vec3).distanceTo ⟨2,0,0⟩ := by
    have h4 : (⟨0,0,0⟩ : Vec3).distanceTo ⟨2,0,0⟩ = Real.sqrt 4 := by
      norm_num [Vec3.distanceTo, Vec3.distanceToSquared]
    rw [h4]
    nlinarith [Real.sq_sqrt (show (0:ℝ) ≤ 4 by norm_num), Real.sqrt_nonneg 4]
  exact ⟨hd, linearDimEnds_equal_perp _ _ _ hd⟩

/-- THREE.Vector3.angleTo on two nonzero vectors: the acos argument is the
normalized dot product, Cauchy-Schwarz keeps it in [−1, 1] so the clamp is
the identity, and the result is the analytic angle in [0, π]. -/
theorem Vec3.angleTo_eq_arccos (a b : Vec3) (ha : a ≠ 0) (hb : b ≠ 0) :
    a.angleTo b = Real.arccos (a.dot b / (a.length * b.length)) ∧
    0 ≤ a.angleTo b ∧ a.angleTo b ≤ Real.pi := by
  have hla : 0 < a.length := Vec3.length_pos_of_ne_zero ha
  have hlb : 0 < b.length := Vec3.length_pos_of_ne_zero hb
  have hprod : Real.sqrt (a.lengthSq * b.lengthSq) = a.length * b.length := by
    rw [Vec3.length, Vec3.length, ← Real.sqrt_mul (Vec3.lengthSq_nonneg a)]
  have hden : a.length * b.length ≠ 0 := by positivity
  have hcs : (a.dot b) ^ 2 ≤ a.lengthSq * b.lengthSq := by
    simp only [Vec3.dot, Vec3.lengthSq]
    nlinarith [sq_nonneg (a.x * b.y - a.y * b.x), sq_nonneg (a.x * b.z - a.z * b.x),
      sq_nonneg (a.y * b.z - a.z * b.y)]
  have hsq : (a.length * b.length) ^ 2 = a.lengthSq * b.lengthSq := by
    rw [mul_pow, Vec3.sq_length, Vec3.sq_length]
  have hboth : -(a.length * b.length) ≤ a.dot b ∧ a.dot b ≤ a.length * b.length :=
    abs_le_of_sq_le_sq' (by rw [hsq]; exact hcs) (by positivity)
  have hq1 : a.dot b / (a.length * b.length) ≤ 1 := by
    rw [div_le_one (by positivity)]
    exact hboth.2
  have hq2 : (-1 : ℝ) ≤ a.dot b / (a.length * b.length) := by
    rw [le_div_iff₀ (by positivity)]
    linarith [hboth.1]
  have hclamp : clamp (a.dot b / (a.length * b.length)) (-1) 1 =
      a.dot b / (a.length * b.length) := by
    unfold clamp
    rw [min_eq_right hq1, max_eq_right hq2]
  have hEq : a.angleTo b = Real.arccos (a.dot b / (a.length * b.length)) := by
    simp only [Vec3.angleTo, hprod]
    rw [if_neg hden, hclamp]
  exact ⟨hEq, by rw [hEq]; exact Real.arccos_nonneg _,
    by rw [hEq]; exact Real.arccos_le_pi _⟩

/-- C4.  For every center C and arm endpoints P1, P2 with nonzero,
non-parallel direction vectors, the angle the angle builder computes
(`v1.angleTo(v2)`) equals the analytic non-reflex angle
arccos((P1−C)·(P2−C) / (|P1−C||P2−C|)) and lies in [0, π].  Over exact
reals the equality is exact; the claim's floating tolerance covers the
floating-point evaluation of the same formula. -/
theorem angleBetweenArms_analytic (center p1 p2 : Vec3)
    (h1 : p1 - center ≠ 0) (h2 : p2 - center ≠ 0)
    (hpar : Vec3.cross (p1 - center) (p2 - center) ≠ 0) :
    angleBetweenArms center p1 p2 =
      Real.arccos ((p1 - center).dot (p2 - center) /
        ((p1 - center).length * (p2 - center).length)) ∧
    0 ≤ angleBetweenArms center p1 p2 ∧
    angleBetweenArms center p1 p2 ≤ Real.pi := by
  have h := Vec3.angleTo_eq_arccos (p1 - center) (p2 - center) h1 h2
  exact ⟨h.1, h.2.1, h.2.2⟩

/-- Witness for C4 at C = (0,0,0), P1 = (1,0,0), P2 = (0,1,0). -/
theorem angleBetweenArms_analytic_witness :
    ((⟨1,0,0⟩ : Vec3) - ⟨0,0,0⟩ ≠ 0 ∧ (⟨0,1,0⟩ : Vec3) - ⟨0,0,0⟩ ≠ 0 ∧
      Vec3.cross ((⟨1,0,0⟩ : Vec3) - ⟨0,0,0⟩) ((⟨0,1,0⟩ : Vec3) - ⟨0,0,0⟩) ≠ 0) ∧
    (angleBetweenArms ⟨0,0,0⟩ ⟨1,0,0⟩ ⟨0,1,0⟩ =
        Real.arccos (((⟨1,0,0⟩ : Vec3) - ⟨0,0,0⟩).dot ((⟨0,1,0⟩ : Vec3) - ⟨0,0,0⟩) /
          (((⟨1,0,0⟩ : Vec3) - ⟨0,0,0⟩).length * ((⟨0,1,0⟩ : Vec3) - ⟨0,0,0⟩).length)) ∧
      0 ≤ angleBetweenArms ⟨0,0,0⟩ ⟨1,0,0⟩ ⟨0,1,0⟩ ∧
      angleBetweenArms ⟨0,0,0⟩ ⟨1,0,0⟩ ⟨0,1,0⟩ ≤ Real.pi) := by
  have h1 : (⟨1,0,0⟩ : Vec3) - ⟨0,0,0⟩ ≠ 0 := by
    intro heq
    have hx := congrArg Vec3.x heq
    simp at hx
  have h2 : (⟨0,1,0⟩ : Vec3) - ⟨0,0,0⟩ ≠ 0 := by
    intro heq
    have hy := congrArg Vec3.y heq
    simp at hy
  have hpar : Vec3.cross ((⟨1,0,0⟩ : Vec3) - ⟨0,0,0⟩) ((⟨0,1,0⟩ : Vec3) - ⟨0,0,0⟩) ≠ 0 := by
    intro heq
    have hz := congrArg Vec3.z heq
    simp [Vec3.cross] at hz
  exact ⟨⟨h1, h2, hpar⟩, angleBetweenArms_analytic _ _ _ h1 h2 hpar⟩

/-- C7.  The geometry builders reject exactly the degenerate inputs, with
no exception raised (they are total functions into an option): the
linear/aligned builder returns none iff |end−start| < 0.001, and the angle
builder — on data carrying its second arm, as every angle record built by
the interaction flow does — returns none iff the radius |center−radiusPoint|
is < 0.001. -/
theorem builders_none_iff_degenerate (style : DimensionStyle)
    (data : DimensionData) (isPreview : Bool) (p2 : Vec3)
    (hp2 : data.angleP2 = some p2) :
    (buildLinearGeometry style data isPreview = Option.none ↔
      data.start.distanceTo data.endPt < 0.001) ∧
    (buildAngleGeometry style data isPreview = Option.none ↔
      data.start.distanceTo data.offsetPoint < 0.001) := by
  constructor
  · constructor
    · intro hnone
      by_contra hge
      simp only [buildLinearGeometry] at hnone
      rw [if_neg hge] at hnone
      exact absurd hnone (by simp)
    · intro hlt
      simp only [buildLinearGeometry]
      rw [if_pos hlt]
  · constructor
    · intro hnone
      by_contra hge
      simp only [buildAngleGeometry, hp2] at hnone
      rw [if_neg hge] at hnone
      exact absurd hnone (by simp)
    · intro hlt
      simp only [buildAngleGeometry, hp2]
      rw [if_pos hlt]

/-- Witness for C7: coincident anchors (distance 0) make the linear
builder return none, and a zero radius makes the angle builder return
none, at a concrete record. -/
theorem builders_none_iff_degenerate_witness :
    buildLinearGeometry defaultStyle
      ⟨0, DimensionType.linear, ⟨0,0,0⟩, ⟨0,0,0⟩, ⟨1,1,0⟩, some ⟨0,1,0⟩, Option.none⟩
      false = Option.none ∧
    buildAngleGeometry defaultStyle
      ⟨0, DimensionType.angle, ⟨0,0,0⟩, ⟨1,0,0⟩, ⟨0,0,0⟩, some ⟨0,1,0⟩, Option.none⟩
      false = Option.none := by
  have hdist0 : (⟨0,0,0⟩ : Vec3).distanceTo ⟨0,0,0⟩ < 0.001 := by
    norm_num [Vec3.distanceTo, Vec3.distanceToSquared, Real.sqrt_zero]
  constructor
  · exact (builders_none_iff_degenerate defaultStyle
      ⟨0, DimensionType.linear, ⟨0,0,0⟩, ⟨0,0,0⟩, ⟨1,1,0⟩, some ⟨0,1,0⟩, Option.none⟩
      false ⟨0,1,0⟩ rfl).1.mpr hdist0
  · exact (builders_none_iff_degenerate defaultStyle
      ⟨0, DimensionType.angle, ⟨0,0,0⟩, ⟨1,0,0⟩, ⟨0,0,0⟩, some ⟨0,1,0⟩, Option.none⟩
      false ⟨0,1,0⟩ rfl).2.mpr hdist0

/-- C9.  `setStyle` applied twice with the same patch is idempotent on the
whole renderer state — in particular the second rebuild produces an
identical primitive set — because the rebuild is a pure function of the
unchanged dimension records and the merged style; and a `setStyle` call
never modifies the records' anchors. -/
theorem setStyle_idempotent (r : RendererState) (p : StylePatch) :
    setStyle p (setStyle p r) = setStyle p r ∧
    (setStyle p r).dimensionData = r.dimensionData := by
  have hopt : ∀ {α : Type} (o : Option α) (a : α), o.getD (o.getD a) = o.getD a := by
    intro α o a
    cases o <;> rfl
  have hmerge : mergeStyle (mergeStyle r.style p) p = mergeStyle r.style p := by
    simp [mergeStyle, hopt]
  constructor
  · simp [setStyle, rebuildAll, hmerge]
  · rfl

/-- C5.  A third-point click closing a 3-point construction-plane
definition with collinear points — the cross product of the two
normalized in-plane directions is zero, which is exactly what the
source's `normal.lengthSq() < 0.001` guard detects after normalization
over exact reals — aborts the definition: the construction plane keeps
its prior origin and normal, the machine resets to idle with a cleared
scratch buffer, and free-point resolution through `getRayPoint` is
unchanged, still using the previous plane. -/
theorem cplane_collinear_aborts (st : SystemState) (snap : Option SnapResult)
    (faceHit : Option (Vec3 × Vec3)) (ray : Ray) (promptText : Option String)
    (s : SnapResult) (sp ep : Vec3)
    (hstate : st.state = InteractionState.defining_cplane_p3)
    (hsnap : snap = some s)
    (hsp : st.startPoint = some sp) (hep : st.endPoint = some ep)
    (hcol : Vec3.cross ((ep - sp).normalize) ((s.point - sp).normalize) = 0) :
    (onClick snap faceHit ray promptText st).cplane = st.cplane ∧
    (onClick snap faceHit ray promptText st).state = InteractionState.idle ∧
    (onClick snap faceHit ray promptText st).startPoint = Option.none ∧
    (onClick snap faceHit ray promptText st).endPoint = Option.none ∧
    (onClick snap faceHit ray promptText st).angleP2 = Option.none ∧
    ∀ (r : Ray) (rp : Option Vec3),
      getRayPoint (onClick snap faceHit ray promptText st).cplane r rp =
        getRayPoint st.cplane r rp := by
  subst hsnap
  have hnorm0 : (Vec3.cross ((ep - sp).normalize)
      ((s.point - sp).normalize)).normalize = 0 := by
    rw [hcol]
    show (Vec3.length 0)⁻¹ • (0 : Vec3) = 0
    exact smul_zero _
  have hcond : ((Vec3.cross ((ep - sp).normalize)
      ((s.point - sp).normalize)).normalize).lengthSq < 0.001 := by
    rw [hnorm0]
    norm_num [Vec3.lengthSq]
  have hstep : onClick (some s) faceHit ray promptText st = resetScratch st := by
    simp only [onClick, hstate, hsp, hep]
    rw [if_pos hcond]
  rw [hstep]
  exact ⟨rfl, rfl, rfl, rfl, rfl, fun r rp => rfl⟩

/-- Witness for C5: a concrete state in `defining_cplane_p3` with the
collinear points (0,0,0), (1,0,0), (2,0,0) keeps the prior plane
(origin (0,0,0), normal (0,1,0)) and returns to idle. -/
theorem cplane_collinear_aborts_witness :
    (onClick (some ⟨⟨2,0,0⟩, SnapType.vertex, 0, Option.none⟩) Option.none
        ⟨⟨0,0,0⟩, ⟨0,0,1⟩⟩ Option.none
        ⟨DimensionType.linear, ⟨⟨0,0,0⟩, ⟨0,1,0⟩⟩,
          InteractionState.defining_cplane_p3, some ⟨0,0,0⟩, some ⟨1,0,0⟩,
          Option.none, ⟨[], 0, defaultStyle, [], []⟩⟩).cplane =
      (⟨⟨0,0,0⟩, ⟨0,1,0⟩⟩ : CPlane) ∧
    (onClick (some ⟨⟨2,0,0⟩, SnapType.vertex, 0, Option.none⟩) Option.none
        ⟨⟨0,0,0⟩, ⟨0,0,1⟩⟩ Option.none
        ⟨DimensionType.linear, ⟨⟨0,0,0⟩, ⟨0,1,0⟩⟩,
          InteractionState.defining_cplane_p3, some ⟨0,0,0⟩, some ⟨1,0,0⟩,
          Option.none, ⟨[], 0, defaultStyle, [], []⟩⟩).state =
      InteractionState.idle := by
  have hcol : Vec3.cross (((⟨1,0,0⟩ : Vec3) - ⟨0,0,0⟩).normalize)
      (((⟨2,0,0⟩ : Vec3) - ⟨0,0,0⟩).normalize) = 0 := by
    have h1 : ((⟨1,0,0⟩ : Vec3) - ⟨0,0,0⟩).normalize =
        (Real.sqrt 1)⁻¹ • ((⟨1,0,0⟩ : Vec3) - ⟨0,0,0⟩) := by
      norm_num [Vec3.normalize, Vec3.length, Vec3.lengthSq]
    have h2 : ((⟨2,0,0⟩ : Vec3) - ⟨0,0,0⟩).normalize =
        (Real.sqrt 4)⁻¹ • ((⟨2,0,0⟩ : Vec3) - ⟨0,0,0⟩) := by
      norm_num [Vec3.normalize, Vec3.length, Vec3.lengthSq]
    rw [h1, h2]
    ext <;> simp [Vec3.cross]
  have h := cplane_collinear_aborts
    ⟨DimensionType.linear, ⟨⟨0,0,0⟩, ⟨0,1,0⟩⟩,
      InteractionState.defining_cplane_p3, some ⟨0,0,0⟩, some ⟨1,0,0⟩,
      Option.none, ⟨[], 0, defaultStyle, [], []⟩⟩
    (some ⟨⟨2,0,0⟩, SnapType.vertex, 0, Option.none⟩) Option.none
    ⟨⟨0,0,0⟩, ⟨0,0,1⟩⟩ Option.none
    ⟨⟨2,0,0⟩, SnapType.vertex, 0, Option.none⟩ ⟨0,0,0⟩ ⟨1,0,0⟩
    rfl rfl rfl rfl hcol
  exact ⟨h.1, h.2.1⟩

/-- C6.  An explicit `cancel`, and a mode switch (which the demo wiring
implements as assigning the mode then calling `cancel`), performed in any
non-idle interaction state: both clear the scratch buffer (start point,
end point, second angle arm), return the machine to idle, and discard the
preview group. -/
theorem cancel_and_mode_switch_clear (st : SystemState)
    (h : st.state ≠ InteractionState.idle) :
    ((cancel st).state = InteractionState.idle ∧
      (cancel st).startPoint = Option.none ∧
      (cancel st).endPoint = Option.none ∧
      (cancel st).angleP2 = Option.none ∧
      (cancel st).renderer.previewGroup = []) ∧
    ∀ m : DimensionType,
      (switchMode m st).mode = m ∧
      (switchMode m st).state = InteractionState.idle ∧
      (switchMode m st).startPoint = Option.none ∧
      (switchMode m st).endPoint = Option.none ∧
      (switchMode m st).angleP2 = Option.none ∧
      (switchMode m st).renderer.previewGroup = [] :=
  ⟨⟨rfl, rfl, rfl, rfl, rfl⟩, fun m => ⟨rfl, rfl, rfl, rfl, rfl, rfl⟩⟩

/-- Witness for C6: a concrete mid-capture state (drawing, with a buffered
start point and a live preview) is fully cleared by `cancel` and by a
switch to angle mode. -/
theorem cancel_and_mode_switch_clear_witness :
    (⟨DimensionType.linear, ⟨⟨0,0,0⟩, ⟨0,1,0⟩⟩, InteractionState.drawing,
        some ⟨1,2,3⟩, Option.none, Option.none,
        ⟨[], 0, defaultStyle, [], [[]]⟩⟩ : SystemState).state ≠
      InteractionState.idle ∧
    (cancel ⟨DimensionType.linear, ⟨⟨0,0,0⟩, ⟨0,1,0⟩⟩, InteractionState.drawing,
        some ⟨1,2,3⟩, Option.none, Option.none,
        ⟨[], 0, defaultStyle, [], [[]]⟩⟩).state = InteractionState.idle ∧
    (switchMode DimensionType.angle
        ⟨DimensionType.linear, ⟨⟨0,0,0⟩, ⟨0,1,0⟩⟩, InteractionState.drawing,
          some ⟨1,2,3⟩, Option.none, Option.none,
          ⟨[], 0, defaultStyle, [], [[]]⟩⟩).renderer.previewGroup = [] := by
  have hne : (⟨DimensionType.linear, ⟨⟨0,0,0⟩, ⟨0,1,0⟩⟩, InteractionState.drawing,
      some ⟨1,2,3⟩, Option.none, Option.none,
      ⟨[], 0, defaultStyle, [], [[]]⟩⟩ : SystemState).state ≠
      InteractionState.idle := by
    intro hcontra
    exact absurd hcontra (by decide)
  have h := cancel_and_mode_switch_clear
    ⟨DimensionType.linear, ⟨⟨0,0,0⟩, ⟨0,1,0⟩⟩, InteractionState.drawing,
      some ⟨1,2,3⟩, Option.none, Option.none,
      ⟨[], 0, defaultStyle, [], [[]]⟩⟩ hne
  exact ⟨hne, h.1.1, (h.2 DimensionType.angle).2.2.2.2.2⟩

/-- C8 counterexample.  The claim says the resolver returns the
ray-plane intersection whenever it exists, falling back to the 10-unit
point only for a parallel ray.  With the plane y = 0 and the upward ray
from (0,1,0) along (0,1,0), the ray is not parallel (normal·dir = 1), yet
`getRayPoint` returns (0,11,0) — the 10-unit fallback, a point not on the
plane — because THREE.Ray.intersectPlane also reports no intersection
when the intersection parameter is negative (plane behind the ray). -/
theorem getRayPoint_not_always_intersection :
    (cplanePlane ⟨⟨0,0,0⟩, ⟨0,1,0⟩⟩ Option.none).normal.dot
      (⟨⟨0,1,0⟩, ⟨0,1,0⟩⟩ : Ray).dir ≠ 0 ∧
    getRayPoint ⟨⟨0,0,0⟩, ⟨0,1,0⟩⟩ ⟨⟨0,1,0⟩, ⟨0,1,0⟩⟩ Option.none = ⟨0, 11, 0⟩ ∧
    (cplanePlane ⟨⟨0,0,0⟩, ⟨0,1,0⟩⟩ Option.none).distanceToPoint ⟨0, 11, 0⟩ ≠ 0 := by
  refine ⟨?_, ?_, ?_⟩
  · norm_num [cplanePlane, Plane.setFromNormalAndCoplanarPoint, Vec3.dot]
  · norm_num [getRayPoint, cplanePlane, Plane.setFromNormalAndCoplanarPoint,
      Ray.intersectPlane, Ray.distanceToPlane, rayPlaneT, Plane.distanceToPoint,
      Ray.at, Vec3.dot]
    ext <;> simp <;> norm_num
  · norm_num [cplanePlane, Plane.setFromNormalAndCoplanarPoint,
      Plane.distanceToPoint, Vec3.dot]

/-- C8 amended.  The free-point resolver is total — it always returns a
point.  It returns the ray-plane intersection `ray.at t` (a point on the
plane through the reference origin, or the plane's own origin if no
reference is given) whenever the ray is not parallel and the intersection
parameter t is nonnegative; a ray contained in the plane returns the ray
origin; in the remaining cases — ray parallel and off the plane, or the
intersection behind the ray origin (t < 0) — it returns the fallback
point 10 units along the ray. -/
theorem getRayPoint_total_cases (cp : CPlane) (ray : Ray) (rp : Option Vec3) :
    ((cplanePlane cp rp).normal.dot ray.dir ≠ 0 →
      0 ≤ rayPlaneT ray (cplanePlane cp rp) →
      getRayPoint cp ray rp = ray.at (rayPlaneT ray (cplanePlane cp rp)) ∧
      (cplanePlane cp rp).distanceToPoint (getRayPoint cp ray rp) = 0) ∧
    ((cplanePlane cp rp).normal.dot ray.dir ≠ 0 →
      rayPlaneT ray (cplanePlane cp rp) < 0 →
      getRayPoint cp ray rp = ray.at 10) ∧
    ((cplanePlane cp rp).normal.dot ray.dir = 0 →
      (cplanePlane cp rp).distanceToPoint ray.origin = 0 →
      getRayPoint cp ray rp = ray.origin) ∧
    ((cplanePlane cp rp).normal.dot ray.dir = 0 →
      (cplanePlane cp rp).distanceToPoint ray.origin ≠ 0 →
      getRayPoint cp ray rp = ray.at 10) := by
  refine ⟨?_, ?_, ?_, ?_⟩
  · intro hden ht
    have hres : getRayPoint cp ray rp = ray.at (rayPlaneT ray (cplanePlane cp rp)) := by
      simp only [getRayPoint, Ray.intersectPlane, Ray.distanceToPlane]
      rw [if_neg hden, if_pos ht]
      rfl
    refine ⟨hres, ?_⟩
    rw [hres]
    simp only [Plane.distanceToPoint, Ray.at, rayPlaneT, Vec3.dot_add_right,
      Vec3.dot_smul_right]
    rw [Vec3.dot_comm ray.origin ((cplanePlane cp rp).normal)]
    field_simp
  · intro hden ht
    simp only [getRayPoint, Ray.intersectPlane, Ray.distanceToPlane]
    rw [if_neg hden, if_neg (not_le.mpr ht)]
    rfl
  · intro hden h0
    simp only [getRayPoint, Ray.intersectPlane, Ray.distanceToPlane]
    rw [if_pos hden, if_pos h0]
    show ray.at 0 = ray.origin
    simp [Ray.at]
  · intro hden h0
    simp only [getRayPoint, Ray.intersectPlane, Ray.distanceToPlane]
    rw [if_pos hden, if_neg h0]
    rfl

/-- Witness for C8 (amended): with the plane y = 0, the upward ray from
(0,1,0) takes the 10-unit fallback (intersection behind the origin), and
the downward ray from (0,1,0) returns the true intersection at its
parameter. -/
theorem getRayPoint_total_cases_witness :
    getRayPoint ⟨⟨0,0,0⟩, ⟨0,1,0⟩⟩ ⟨⟨0,1,0⟩, ⟨0,1,0⟩⟩ Option.none =
      Ray.at ⟨⟨0,1,0⟩, ⟨0,1,0⟩⟩ 10 ∧
    getRayPoint ⟨⟨0,0,0⟩, ⟨0,1,0⟩⟩ ⟨⟨0,1,0⟩, ⟨0,-1,0⟩⟩ Option.none =
      Ray.at ⟨⟨0,1,0⟩, ⟨0,-1,0⟩⟩
        (rayPlaneT ⟨⟨0,1,0⟩, ⟨0,-1,0⟩⟩ (cplanePlane ⟨⟨0,0,0⟩, ⟨0,1,0⟩⟩ Option.none)) := by
  constructor
  · exact (getRayPoint_total_cases ⟨⟨0,0,0⟩, ⟨0,1,0⟩⟩ ⟨⟨0,1,0⟩, ⟨0,1,0⟩⟩
      Option.none).2.1
      (by norm_num [cplanePlane, Plane.setFromNormalAndCoplanarPoint, Vec3.dot])
      (by norm_num [rayPlaneT, cplanePlane, Plane.setFromNormalAndCoplanarPoint,
        Vec3.dot])
  · exact ((getRayPoint_total_cases ⟨⟨0,0,0⟩, ⟨0,1,0⟩⟩ ⟨⟨0,1,0⟩, ⟨0,-1,0⟩⟩
      Option.none).1
      (by norm_num [cplanePlane, Plane.setFromNormalAndCoplanarPoint, Vec3.dot])
      (by norm_num [rayPlaneT, cplanePlane, Plane.setFromNormalAndCoplanarPoint,
        Vec3.dot])).1

/-- C10.  In the drawing state of a non-leader mode, a snapped click whose
point is within 0.001 of the buffered start point leaves the machine in
`drawing` — no transition — but the clicked point has already been written
into the scratch buffer's end-point slot before the degeneracy check;
everything else (start point, second arm, mode, plane, renderer) is
untouched.  Analogously in `drawing_angle_p2` the second-arm slot is
written while the state stays `drawing_angle_p2`. -/
theorem degenerate_click_writes_buffer :
    (∀ (st : SystemState) (snap : Option SnapResult)
        (faceHit : Option (Vec3 × Vec3)) (ray : Ray)
        (promptText : Option String) (s : SnapResult) (sp : Vec3),
      st.state = InteractionState.drawing →
      st.mode ≠ DimensionType.leader →
      snap = some s → st.startPoint = some sp →
      sp.distanceTo s.point < 0.001 →
      (onClick snap faceHit ray promptText st).state = InteractionState.drawing ∧
      (onClick snap faceHit ray promptText st).endPoint = some s.point ∧
      (onClick snap faceHit ray promptText st).startPoint = st.startPoint ∧
      (onClick snap faceHit ray promptText st).angleP2 = st.angleP2 ∧
      (onClick snap faceHit ray promptText st).mode = st.mode ∧
      (onClick snap faceHit ray promptText st).cplane = st.cplane ∧
      (onClick snap faceHit ray promptText st).renderer = st.renderer) ∧
    (∀ (st : SystemState) (snap : Option SnapResult)
        (faceHit : Option (Vec3 × Vec3)) (ray : Ray)
        (promptText : Option String) (s : SnapResult) (sp : Vec3),
      st.state = InteractionState.drawing_angle_p2 →
      snap = some s → st.startPoint = some sp →
      sp.distanceTo s.point < 0.001 →
      (onClick snap faceHit ray promptText st).state =
        InteractionState.drawing_angle_p2 ∧
      (onClick snap faceHit ray promptText st).angleP2 = some s.point ∧
      (onClick snap faceHit ray promptText st).startPoint = st.startPoint ∧
      (onClick snap faceHit ray promptText st).endPoint = st.endPoint ∧
      (onClick snap faceHit ray promptText st).mode = st.mode ∧
      (onClick snap faceHit ray promptText st).cplane = st.cplane ∧
      (onClick snap faceHit ray promptText st).renderer = st.renderer) := by
  constructor
  · intro st snap faceHit ray promptText s sp hstate hmode hsnap hsp hdist
    subst hsnap
    have hstep : onClick (some s) faceHit ray promptText st =
        { st with endPoint := some s.point } := by
      simp only [onClick, hstate, hsp]
      rw [if_neg hmode, if_pos hdist]
    rw [hstep]
    exact ⟨hstate, rfl, rfl, rfl, rfl, rfl, rfl⟩
  · intro st snap faceHit ray promptText s sp hstate hsnap hsp hdist
    subst hsnap
    have hstep : onClick (some s) faceHit ray promptText st =
        { st with angleP2 := some s.point } := by
      simp only [onClick, hstate, hsp]
      rw [if_pos hdist]
    rw [hstep]
    exact ⟨hstate, rfl, rfl, rfl, rfl, rfl, rfl⟩

/-- Witness for C10: clicking the buffered start point again (distance 0)
in `drawing` (linear mode) stays in `drawing` with the end-point slot
overwritten, and in `drawing_angle_p2` (angle mode) stays there with the
second-arm slot overwritten. -/
theorem degenerate_click_writes_buffer_witness :
    (onClick (some ⟨⟨0,0,0⟩, SnapType.vertex, 0, Option.none⟩) Option.none
        ⟨⟨0,0,0⟩, ⟨0,0,1⟩⟩ Option.none
        ⟨DimensionType.linear, ⟨⟨0,0,0⟩, ⟨0,1,0⟩⟩, InteractionState.drawing,
          some ⟨0,0,0⟩, Option.none, Option.none,
          ⟨[], 0, defaultStyle, [], []⟩⟩).state = InteractionState.drawing ∧
    (onClick (some ⟨⟨0,0,0⟩, SnapType.vertex, 0, Option.none⟩) Option.none
        ⟨⟨0,0,0⟩, ⟨0,0,1⟩⟩ Option.none
        ⟨DimensionType.linear, ⟨⟨0,0,0⟩, ⟨0,1,0⟩⟩, InteractionState.drawing,
          some ⟨0,0,0⟩, Option.none, Option.none,
          ⟨[], 0, defaultStyle, [], []⟩⟩).endPoint = some ⟨0,0,0⟩ ∧
    (onClick (some ⟨⟨0,0,0⟩, SnapType.vertex, 0, Option.none⟩) Option.none
        ⟨⟨0,0,0⟩, ⟨0,0,1⟩⟩ Option.none
        ⟨DimensionType.angle, ⟨⟨0,0,0⟩, ⟨0,1,0⟩⟩,
          InteractionState.drawing_angle_p2, some ⟨0,0,0⟩, some ⟨1,0,0⟩,
          Option.none, ⟨[], 0, defaultStyle, [], []⟩⟩).state =
      InteractionState.drawing_angle_p2 ∧
    (onClick (some ⟨⟨0,0,0⟩, SnapType.vertex, 0, Option.none⟩) Option.none
        ⟨⟨0,0,0⟩, ⟨0,0,1⟩⟩ Option.none
        ⟨DimensionType.angle, ⟨⟨0,0,0⟩, ⟨0,1,0⟩⟩,
          InteractionState.drawing_angle_p2, some ⟨0,0,0⟩, some ⟨1,0,0⟩,
          Option.none, ⟨[], 0, defaultStyle, [], []⟩⟩).angleP2 = some ⟨0,0,0⟩ := by
  have hdist : (⟨0,0,0⟩ : Vec3).distanceTo ⟨0,0,0⟩ < 0.001 := by
    norm_num [Vec3.distanceTo, Vec3.distanceToSquared, Real.sqrt_zero]
  have h1 := degenerate_click_writes_buffer.1
    ⟨DimensionType.linear, ⟨⟨0,0,0⟩, ⟨0,1,0⟩⟩, InteractionState.drawing,
      some ⟨0,0,0⟩, Option.none, Option.none, ⟨[], 0, defaultStyle, [], []⟩⟩
    (some ⟨⟨0,0,0⟩, SnapType.vertex, 0, Option.none⟩) Option.none
    ⟨⟨0,0,0⟩, ⟨0,0,1⟩⟩ Option.none
    ⟨⟨0,0,0⟩, SnapType.vertex, 0, Option.none⟩ ⟨0,0,0⟩
    rfl (by intro hcontra; exact absurd hcontra (by decide)) rfl rfl hdist
  have h2 := degenerate_click_writes_buffer.2
    ⟨DimensionType.angle, ⟨⟨0,0,0⟩, ⟨0,1,0⟩⟩,
      InteractionState.drawing_angle_p2, some ⟨0,0,0⟩, some ⟨1,0,0⟩,
      Option.none, ⟨[], 0, defaultStyle, [], []⟩⟩
    (some ⟨⟨0,0,0⟩, SnapType.vertex, 0, Option.none⟩) Option.none
    ⟨⟨0,0,0⟩, ⟨0,0,1⟩⟩ Option.none
    ⟨⟨0,0,0⟩, SnapType.vertex, 0, Option.none⟩ ⟨0,0,0⟩
    rfl rfl rfl hdist
  exact ⟨h1.1, h1.2.1, h2.1, h2.2.1⟩

end

end ThreeDim
